import Mathlib

set_option maxRecDepth 100000

/-!
Verification of the binary decoder in `ExtractDat3.py` (douglascoenen/ExtractDat3).

The Python module decodes Thermo Element ICP-MS `.dat` files: a fixed file
header with an offset index, per-scan 188-byte headers, and per-mass streams
of tagged 32-bit little-endian words.  This file is a shallow embedding of
that decoder: a file is a `List Nat` of bytes, reads return `Option`, Python
exceptions become an explicit `DatError`, and Python floats are modelled as
exact rationals (`ℚ`).
-/

namespace ExtractDat3

/-! ## Constants (module-level constants of `ExtractDat3.py`) -/

def HDR_INDEX_OFFSET : Nat := 33
def HDR_INDEX_LEN : Nat := 39
def HDR_TIMESTAMP : Nat := 40

def SCAN_NUMBER : Nat := 9
def SCAN_DELTA : Nat := 7
def SCAN_ACF : Nat := 12
def SCAN_TIME : Nat := 19

def KEY_EOS : Nat := 0xF
def KEY_EOM : Nat := 0x8
def KEY_BSCAN : Nat := 0xC
def KEY_B : Nat := 0xB
def KEY_VOLT : Nat := 0x4
def KEY_TIME : Nat := 0x3
def KEY_MASS : Nat := 0x2
def KEY_DATA : Nat := 0x1

def DATA_ANALOG : Nat := 0x0
def DATA_PULSE : Nat := 0x1
def DATA_FARADAY : Nat := 0x8

/-! ## Errors

Python exceptions of the module (`EOS`, `NotOpen`, `UnknownKey`,
`UnknownDataType`), the bare `Exception(name + " is already set")` raised by
`Mass._SetAttr` (the spec calls it `MalformedAttribute`), the builtin
`ZeroDivisionError` that `scan.edac * 1000.0 / value / 2**18` raises when
`value == 0`, the builtin `IndexError` raised by `DatFile.GetScan`'s explicit
range check, the builtin `IndexError` a Python tuple raises on an index below
`-len`, and `struct.error` on a short read (`truncated`). -/

inductive AttrName where
  | channelTime
  | duration
deriving DecidableEq, Repr

inductive DatError where
  | eos
  | notOpen
  | unknownKey (code : Nat)
  | unknownDataType (code : Nat)
  | malformedAttribute (a : AttrName)
  | zeroDivision
  | indexOutOfRange (index : Int) (numScans : Nat)
  | tupleIndexError
  | truncated
deriving DecidableEq, Repr

/-! ## Byte-level reads (`struct.unpack("<I", fd.read(4))`) -/

/-- Read one little-endian unsigned 32-bit word at byte `off`;
`none` models the `struct.error` on a short read. -/
def readU32LE (f : List Nat) (off : Nat) : Option Nat :=
  match f[off]?, f[off+1]?, f[off+2]?, f[off+3]? with
  | some b0, some b1, some b2, some b3 =>
      some (b0 % 256 + (b1 % 256) * 2^8 + (b2 % 256) * 2^16 + (b3 % 256) * 2^24)
  | _, _, _, _ => none

/-- Read `n` consecutive little-endian unsigned 32-bit words starting at
byte `off` (`struct.unpack("<%dI" % n, fd.read(4*n))`). -/
def readU32Array (f : List Nat) (off : Nat) : Nat → Option (List Nat)
  | 0 => some []
  | n + 1 =>
    match readU32LE f off, readU32Array f (off + 4) n with
    | some v, some vs => some (v :: vs)
    | _, _ => none

/-! ## WordCodec: `key = (tmp & 0xF0000000) >> 28`, `value = tmp & 0x0FFFFFFF` -/

def wordKey (w : Nat) : Nat := w / 2^28 % 2^4

def wordValue (w : Nat) : Nat := w % 2^28

/-! ## Mass decoding (`Mass.__init__` loop body) -/

/-- The mutable attribute state of a `Mass` object while its word stream is
being decoded: `magnetMass`, `acceleratingVoltage`, `channelTime`,
`duration`, and the `measurements` defaultdict (only the three categories
the code ever appends to). -/
structure MassState where
  magnetMass : Option ℚ
  acceleratingVoltage : Option ℚ
  channelTime : Option Nat
  duration : Option Nat
  analog : List Int
  pulse : List Int
  faraday : List Int
deriving DecidableEq, Repr

def MassState.init : MassState :=
  { magnetMass := none, acceleratingVoltage := none, channelTime := none,
    duration := none, analog := [], pulse := [], faraday := [] }

/-- Outcome of processing one tagged word inside `Mass.__init__`'s `while`
loop: keep looping, `break` with the final state (EOM), `raise EOS()`, or
raise a real error. -/
inductive MassStep where
  | cont (st : MassState)
  | eom (st : MassState)
  | eos
  | fail (e : DatError)
deriving DecidableEq, Repr

/-- One iteration of the `while True` loop of `Mass.__init__`, given the
already-unpacked word `w` and the owning scan's `edac`. -/
def massStep (edac : Nat) (st : MassState) (w : Nat) : MassStep :=
  let key := wordKey w
  let value := wordValue w
  if key = KEY_EOS then
    .eos
  else if key = KEY_EOM then
    match st.duration with
    | some _ => .fail (.malformedAttribute .duration)
    | none => .eom { st with duration := some value }
  else if key = KEY_BSCAN then
    .cont st
  else if key = KEY_B then
    .cont st
  else if key = KEY_VOLT then
    if value = 0 then .fail .zeroDivision
    else .cont { st with
      acceleratingVoltage := some ((edac : ℚ) * 1000 / (value : ℚ) / 2^18) }
  else if key = KEY_TIME then
    match st.channelTime with
    | some _ => .fail (.malformedAttribute .channelTime)
    | none => .cont { st with channelTime := some value }
  else if key = KEY_MASS then
    .cont { st with magnetMass := some ((value : ℚ) * 1 / 2^18) }
  else if key = KEY_DATA then
    let flag : Nat := value / 2^24 % 2^4
    let dataType : Nat := value / 2^20 % 2^4
    let exp : Nat := value / 2^16 % 2^4
    let raw : Nat := value % 2^16
    let v : Int := if flag ≠ 0 then -((raw : Int) * 2^exp) else (raw : Int) * 2^exp
    if dataType = DATA_ANALOG then
      .cont { st with analog := st.analog ++ [v] }
    else if dataType = DATA_PULSE then
      .cont { st with pulse := st.pulse ++ [v] }
    else if dataType = DATA_FARADAY then
      .cont { st with faraday := st.faraday ++ [v] }
    else
      .fail (.unknownDataType dataType)
  else
    .fail (.unknownKey key)

/-- The `while True` loop of `Mass.__init__`: read a word at `off`, process
it, loop at `off + 4`.  On EOM it returns the finished state together with
`size = fd.tell() - self.offset = off + 4 - start`.  `fuel` only bounds the
recursion; each iteration consumes 4 bytes, so `f.length + 1` fuel is never
exhausted before a read fails. -/
def decodeMassLoop (edac : Nat) (f : List Nat) (start : Nat) :
    Nat → MassState → Nat → Except DatError (MassState × Nat)
  | 0, _, _ => .error .truncated
  | fuel + 1, st, off =>
    match readU32LE f off with
    | none => .error .truncated
    | some w =>
      match massStep edac st w with
      | .cont st' => decodeMassLoop edac f start fuel st' (off + 4)
      | .eom st' => .ok (st', off + 4 - start)
      | .eos => .error .eos
      | .fail e => .error e

/-- Model of `Mass.__init__`: decode one mass at byte `offset`, returning its final
attribute state and its `size`. -/
def decodeMass (edac : Nat) (f : List Nat) (offset : Nat) :
    Except DatError (MassState × Nat) :=
  decodeMassLoop edac f offset (f.length + 1) MassState.init offset

/-! ## Scan (`Scan.__init__`, `Scan.GetMass`, `ScanIterator`) -/

/-- A decoded `Scan` object: the six named fields extracted from the 47-field
header, the raw field array (`_vals`), and `offset`, the byte where the mass
stream begins (`headerOffset + 188`). -/
structure ScanData where
  number : Nat
  delta : Nat
  acf : Nat
  time : Nat
  fcf : Nat
  edac : Nat
  vals : List Nat
  offset : Nat
deriving DecidableEq, Repr

/-- Model of `Scan.__init__`: unpack 47 little-endian u32 fields at `offset`;
`none` models `struct.error` on a short read. -/
def scanDecode (f : List Nat) (offset : Nat) : Option ScanData :=
  match readU32Array f offset 47 with
  | none => none
  | some vals =>
    some { number := vals.getD 9 0, delta := vals.getD 7 0,
           acf := vals.getD 12 0, time := vals.getD 19 0,
           fcf := vals.getD 35 0, edac := vals.getD 31 0,
           vals := vals, offset := offset + 47 * 4 }

/-- Model of `Scan.GetMass`: `_CheckOpen`, then decode a `Mass` at `offset`, catching
`EOS` and turning it into `None`. -/
def getMass (f : List Nat) (s : ScanData) (isOpen : Bool) (offset : Nat) :
    Except DatError (Option (MassState × Nat)) :=
  if isOpen = false then .error .notOpen
  else
    match decodeMass s.edac f offset with
    | .error .eos => .ok none
    | .error e => .error e
    | .ok m => .ok (some m)

/-- Driving `ScanIterator.__next__` to exhaustion: collect the masses of a
scan starting at byte `off`, advancing the cursor by each mass's `size`;
`GetMass` returning `None` (EOS) raises `StopIteration`, ending the list.
`fuel` only bounds the recursion (each mass consumes at least 4 bytes). -/
def iterMasses (f : List Nat) (s : ScanData) (isOpen : Bool) :
    Nat → Nat → Except DatError (List (MassState × Nat))
  | 0, _ => .error .truncated
  | fuel + 1, off =>
    match getMass f s isOpen off with
    | .error e => .error e
    | .ok none => .ok []
    | .ok (some (m, size)) =>
      match iterMasses f s isOpen fuel (off + size) with
      | .error e => .error e
      | .ok rest => .ok ((m, size) :: rest)

/-- All masses of a scan, iterated from the scan's mass-stream start
(`ScanIterator(self, self.offset)`). -/
def scanMasses (f : List Nat) (s : ScanData) (isOpen : Bool) :
    Except DatError (List (MassState × Nat)) :=
  iterMasses f s isOpen (f.length + 1) s.offset

/-! ## DatFile (`DatFile.__init__`, `NumScans`, `GetScan`) -/

/-- A constructed `DatFile` object: `timestamp`, the raw 85-field header
array (`_vals`), and the offset table (`_offsets`). -/
structure DatFileData where
  timestamp : Nat
  vals : List Nat
  offsets : List Nat
deriving DecidableEq, Repr

/-- Model of `DatFile.__init__`: unpack 85 little-endian u32 fields at byte `0x10`,
take `timestamp`, index length and index offset from fields 40, 39 and 33,
then unpack the offset table of `indexLen` u32 values at `indexOffset + 4`.
`none` models `struct.error` on a short read. -/
def datFileDecode (f : List Nat) : Option DatFileData :=
  match readU32Array f 0x10 85 with
  | none => none
  | some vals =>
    let indexLen : Nat := vals.getD HDR_INDEX_LEN 0
    let indexOffset : Nat := vals.getD HDR_INDEX_OFFSET 0
    match readU32Array f (indexOffset + 4) indexLen with
    | none => none
    | some offsets =>
      some { timestamp := vals.getD HDR_TIMESTAMP 0, vals := vals,
             offsets := offsets }

/-- Model of `DatFile.NumScans`: `len(self._offsets)`. -/
def DatFileData.numScans (d : DatFileData) : Nat := d.offsets.length

/-- Python tuple indexing `t[i]`: a negative index counts from the end
(`t[len(t) + i]`); out of bounds raises `IndexError`. -/
def pyTupleGet (xs : List Nat) (i : Int) : Option Nat :=
  let j : Int := if i < 0 then (xs.length : Int) + i else i
  if 0 ≤ j ∧ j < (xs.length : Int) then some (xs.getD j.toNat 0) else none

/-- Model of `DatFile.GetScan`: `_CheckOpen`, explicit upper-bound check raising
`IndexError("Scan index out of range: ...")`, then `Scan(self,
self._offsets[index])` with Python tuple-indexing semantics. -/
def getScan (f : List Nat) (d : DatFileData) (isOpen : Bool) (index : Int) :
    Except DatError ScanData :=
  if isOpen = false then .error .notOpen
  else if (d.offsets.length : Int) ≤ index then
    .error (.indexOutOfRange index d.offsets.length)
  else
    match pyTupleGet d.offsets index with
    | none => .error .tupleIndexError
    | some off =>
      match scanDecode f off with
      | none => .error .truncated
      | some s => .ok s

/-- End-to-end: construct the `DatFile`, fetch scan `i` with `GetScan`, and
iterate all of its masses. -/
def fileScanMasses (f : List Nat) (i : Int) :
    Except DatError (List (MassState × Nat)) :=
  match datFileDecode f with
  | none => .error .truncated
  | some d =>
    match getScan f d true i with
    | .error e => .error e
    | .ok s => scanMasses f s true

/-! ## A concrete test file

One index entry pointing at a 188-byte scan header at byte 364, followed by
one mass record: a DATA word encoding analog value 10, an EOM word with
payload 100, and an EOS word. -/

/-- The four bytes of `n` in little-endian order. -/
def u32bytes (n : Nat) : List Nat :=
  [n % 256, n / 2^8 % 256, n / 2^16 % 256, n / 2^24 % 256]

/-- The 85 header fields of the test file: field 33 (index offset) = 356,
field 39 (index length) = 1, field 40 (timestamp) = 1234567, rest 0. -/
def testVals : List Nat :=
  List.replicate 33 0 ++ [356] ++ List.replicate 5 0 ++ [1, 1234567] ++
    List.replicate 44 0

/-- The 47 scan-header fields of the test file: field 31 (EDAC) = 5, rest 0. -/
def testScanVals : List Nat :=
  List.replicate 31 0 ++ [5] ++ List.replicate 15 0

/-- The test file: 16 filler bytes, the 85 header fields, 4 skipped bytes,
the one-entry offset table `[364]`, the scan header, then the mass stream
`DATA(analog, 10)`, `EOM(100)`, `EOS`. -/
def testFile : List Nat :=
  List.replicate 16 0 ++ (testVals.map u32bytes).flatten ++ [0, 0, 0, 0] ++
    u32bytes 364 ++ (testScanVals.map u32bytes).flatten ++
    u32bytes 0x1000000A ++ u32bytes 0x80000064 ++ u32bytes 0xF0000000

/-- The `DatFileData` the test file decodes to. -/
def testDat : DatFileData :=
  { timestamp := 1234567, vals := testVals, offsets := [364] }

/-- The `ScanData` decoded at offset 364 of the test file. -/
def testScan : ScanData :=
  { number := 0, delta := 0, acf := 0, time := 0, fcf := 0, edac := 5,
    vals := testScanVals, offset := 552 }

/-! ## Spec-side field decomposition of a DATA payload

Named after the spec's `flag = bits[24:27]`, `dataType = bits[20:23]`,
`exponent = bits[16:19]`, `rawMagnitude = bits[0:15]`,
`value = rawMagnitude << exponent`, negated iff `flag != 0`. -/

def dataFlag (p : Nat) : Nat := p / 2^24 % 2^4

def dataTypeOf (p : Nat) : Nat := p / 2^20 % 2^4

def dataExponent (p : Nat) : Nat := p / 2^16 % 2^4

def dataRawMagnitude (p : Nat) : Nat := p % 2^16

def dataValue (p : Nat) : Int :=
  if dataFlag p ≠ 0 then -((dataRawMagnitude p : Int) * 2^(dataExponent p))
  else (dataRawMagnitude p : Int) * 2^(dataExponent p)

/-! ## Helper lemmas -/

theorem readU32Array_length {f : List Nat} :
    ∀ {n off : Nat} {vs : List Nat}, readU32Array f off n = some vs →
      vs.length = n := by
  intro n
  induction n with
  | zero =>
    intro off vs h
    simp only [readU32Array, Option.some.injEq] at h
    simp [← h]
  | succ k ih =>
    intro off vs h
    unfold readU32Array at h
    cases h1 : readU32LE f off with
    | none => simp [h1] at h
    | some v =>
      cases h2 : readU32Array f (off + 4) k with
      | none => simp [h1, h2] at h
      | some vs' =>
        simp only [h1, h2, Option.some.injEq] at h
        simp [← h, ih h2]

theorem pyTupleGet_nonneg (xs : List Nat) (i : Int) (h0 : 0 ≤ i)
    (h1 : i < (xs.length : Int)) :
    pyTupleGet xs i = some (xs.getD i.toNat 0) := by
  have hneg : ¬ i < 0 := by omega
  simp [pyTupleGet, hneg, h0, h1]

theorem pyTupleGet_neg (xs : List Nat) (i : Int) (h0 : i < 0)
    (h1 : -(xs.length : Int) ≤ i) :
    pyTupleGet xs i = some (xs.getD ((xs.length : Int) + i).toNat 0) := by
  have ha : 0 ≤ (xs.length : Int) + i := by omega
  have hb : (xs.length : Int) + i < (xs.length : Int) := by omega
  simp [pyTupleGet, h0, ha, hb]

/-! ## Claim theorems -/

/-- C1: a DATA-tagged word (tag `0x1`) is decomposed into
`flag = bits[24:27]`, `dataType = bits[20:23]`, `exponent = bits[16:19]`,
`rawMagnitude = bits[0:15]`; the decoded value is `rawMagnitude << exponent`,
negated iff `flag != 0`; data types 0, 1, 8 append the value to the analog,
pulse, faraday sequence respectively (at the end, preserving arrival order),
and any other data type fails with an unknown-data-type error carrying the
offending code. -/
theorem c1_data_word (edac : Nat) (st : MassState) (w : Nat)
    (h : wordKey w = KEY_DATA) :
    (dataTypeOf (wordValue w) = 0 → massStep edac st w =
      .cont { st with analog := st.analog ++ [dataValue (wordValue w)] }) ∧
    (dataTypeOf (wordValue w) = 1 → massStep edac st w =
      .cont { st with pulse := st.pulse ++ [dataValue (wordValue w)] }) ∧
    (dataTypeOf (wordValue w) = 8 → massStep edac st w =
      .cont { st with faraday := st.faraday ++ [dataValue (wordValue w)] }) ∧
    (dataTypeOf (wordValue w) ≠ 0 → dataTypeOf (wordValue w) ≠ 1 →
      dataTypeOf (wordValue w) ≠ 8 →
      massStep edac st w = .fail (.unknownDataType (dataTypeOf (wordValue w)))) := by
  refine ⟨?_, ?_, ?_, ?_⟩
  · intro hd
    norm_num [dataTypeOf] at hd
    simp [massStep, h, KEY_EOS, KEY_EOM, KEY_BSCAN, KEY_B, KEY_VOLT, KEY_TIME,
      KEY_MASS, KEY_DATA, DATA_ANALOG, DATA_PULSE, DATA_FARADAY, hd,
      dataValue, dataFlag, dataTypeOf, dataExponent, dataRawMagnitude]
  · intro hd
    norm_num [dataTypeOf] at hd
    simp [massStep, h, KEY_EOS, KEY_EOM, KEY_BSCAN, KEY_B, KEY_VOLT, KEY_TIME,
      KEY_MASS, KEY_DATA, DATA_ANALOG, DATA_PULSE, DATA_FARADAY, hd,
      dataValue, dataFlag, dataTypeOf, dataExponent, dataRawMagnitude]
  · intro hd
    norm_num [dataTypeOf] at hd
    simp [massStep, h, KEY_EOS, KEY_EOM, KEY_BSCAN, KEY_B, KEY_VOLT, KEY_TIME,
      KEY_MASS, KEY_DATA, DATA_ANALOG, DATA_PULSE, DATA_FARADAY, hd,
      dataValue, dataFlag, dataTypeOf, dataExponent, dataRawMagnitude]
  · intro h0 h1 h8
    norm_num [dataTypeOf] at h0 h1 h8
    simp [massStep, h, KEY_EOS, KEY_EOM, KEY_BSCAN, KEY_B, KEY_VOLT, KEY_TIME,
      KEY_MASS, KEY_DATA, DATA_ANALOG, DATA_PULSE, DATA_FARADAY, h0, h1, h8,
      dataTypeOf]

/-- Witness for C1: the word `0x1000000A` (tag DATA, flag 0, dataType 0,
exponent 0, rawMagnitude 10) appends `+10` to the analog sequence. -/
theorem c1_data_word_witness :
    wordKey 0x1000000A = KEY_DATA ∧ dataTypeOf (wordValue 0x1000000A) = 0 ∧
    massStep 5 MassState.init 0x1000000A =
      .cont { MassState.init with
              analog := MassState.init.analog ++ [dataValue (wordValue 0x1000000A)] } :=
  ⟨by decide, by decide,
   (c1_data_word 5 MassState.init 0x1000000A (by decide)).1 (by decide)⟩

/-- Spec-side accelerating-voltage formula:
`acceleratingVoltage = EDAC * 1000.0 / payload / 262144`. -/
def specAccelVoltage (edac p : Nat) : ℚ := (edac : ℚ) * 1000 / (p : ℚ) / 262144

/-- C8: a VOLT-tagged word (tag `0x4`) with non-zero payload `p` sets
`acceleratingVoltage = EDAC * 1000.0 / p / 2^18`; a later VOLT word
overwrites an earlier value without error (no set-once enforcement). -/
theorem c8_volt (edac : Nat) (st : MassState) (w : Nat)
    (hk : wordKey w = KEY_VOLT) (hp : wordValue w ≠ 0) :
    massStep edac st w =
      .cont { st with acceleratingVoltage := some (specAccelVoltage edac (wordValue w)) } ∧
    ∀ old : ℚ, massStep edac { st with acceleratingVoltage := some old } w =
      .cont { st with acceleratingVoltage := some (specAccelVoltage edac (wordValue w)) } := by
  constructor
  · simp [massStep, hk, hp, specAccelVoltage,
      KEY_EOS, KEY_EOM, KEY_BSCAN, KEY_B, KEY_VOLT]
    norm_num
  · intro old
    simp [massStep, hk, hp, specAccelVoltage,
      KEY_EOS, KEY_EOM, KEY_BSCAN, KEY_B, KEY_VOLT]
    norm_num

/-- Witness for C8: the word `0x40000002` (tag VOLT, payload 2) in a scan
with EDAC 5 sets `acceleratingVoltage = 5 * 1000 / 2 / 262144`, also when a
previous value was present. -/
theorem c8_volt_witness :
    massStep 5 MassState.init 0x40000002 =
      .cont { MassState.init with
              acceleratingVoltage := some (specAccelVoltage 5 (wordValue 0x40000002)) } ∧
    massStep 5 { MassState.init with acceleratingVoltage := some 7 } 0x40000002 =
      .cont { MassState.init with
              acceleratingVoltage := some (specAccelVoltage 5 (wordValue 0x40000002)) } :=
  ⟨(c8_volt 5 MassState.init 0x40000002 (by decide) (by decide)).1,
   (c8_volt 5 MassState.init 0x40000002 (by decide) (by decide)).2 7⟩

/-- C9: a VOLT-tagged word with payload 0 makes the decode fail with an
unguarded division-by-zero error, which is none of the errors of the spec's
taxonomy (not UnknownKey, UnknownDataType, MalformedAttribute, NotOpen, and
not the EndOfScan sentinel). -/
theorem c9_volt_zero (edac : Nat) (st : MassState) (w : Nat) (f : List Nat)
    (start fuel off : Nat) (hk : wordKey w = KEY_VOLT) (hp : wordValue w = 0) :
    massStep edac st w = .fail .zeroDivision ∧
    (readU32LE f off = some w →
      decodeMassLoop edac f start (fuel + 1) st off = .error .zeroDivision) ∧
    (∀ c, DatError.zeroDivision ≠ .unknownKey c) ∧
    (∀ c, DatError.zeroDivision ≠ .unknownDataType c) ∧
    (∀ a, DatError.zeroDivision ≠ .malformedAttribute a) ∧
    DatError.zeroDivision ≠ .notOpen ∧
    DatError.zeroDivision ≠ .eos := by
  have hstep : massStep edac st w = .fail .zeroDivision := by
    simp [massStep, hk, hp, KEY_EOS, KEY_EOM, KEY_BSCAN, KEY_B, KEY_VOLT]
  refine ⟨hstep, ?_, ?_, ?_, ?_, ?_, ?_⟩
  · intro hr
    simp [decodeMassLoop, hr, hstep]
  all_goals simp

/-- Witness for C9: the word `0x40000000` (tag VOLT, payload 0) fails the
decode loop with the division-by-zero error. -/
theorem c9_volt_zero_witness :
    massStep 5 MassState.init 0x40000000 = .fail .zeroDivision ∧
    decodeMassLoop 5 (u32bytes 0x40000000) 0 1 MassState.init 0 =
      .error .zeroDivision :=
  ⟨(c9_volt_zero 5 MassState.init 0x40000000 (u32bytes 0x40000000) 0 0 0
      (by decide) (by decide)).1,
   (c9_volt_zero 5 MassState.init 0x40000000 (u32bytes 0x40000000) 0 0 0
      (by decide) (by decide)).2.1 (by decide)⟩

/-- C2: an EOM-tagged word (tag `0x8`) sets `duration` to its payload and
completes the mass with `size = currentOffset - startOffset`, the byte count
of every word consumed, EOM included; the mass iterator then advances its
cursor by exactly that size, so the next mass is decoded at the byte
immediately after the EOM word. -/
theorem c2_eom_size (edac : Nat) (f : List Nat) (start fuel off w : Nat)
    (st : MassState) (s : ScanData) (m : MassState) (size : Nat)
    (rest : List (MassState × Nat)) :
    (readU32LE f off = some w → wordKey w = KEY_EOM → st.duration = none →
      decodeMassLoop edac f start (fuel + 1) st off =
        .ok ({ st with duration := some (wordValue w) }, off + 4 - start)) ∧
    (getMass f s true off = .ok (some (m, size)) →
      iterMasses f s true fuel (off + size) = .ok rest →
      iterMasses f s true (fuel + 1) off = .ok ((m, size) :: rest)) := by
  constructor
  · intro hr hk hd
    have hstep : massStep edac st w = .eom { st with duration := some (wordValue w) } := by
      simp [massStep, hk, hd, KEY_EOS, KEY_EOM]
    simp [decodeMassLoop, hr, hstep]
  · intro hg hrest
    simp [iterMasses, hg, hrest]

/-- Witness for C2: in the test file the mass at byte 552 is a DATA word and
an EOM word with payload 100, so its size is 8 and the iterator resumes at
byte 560, the byte after the EOM word. -/
theorem c2_eom_size_witness :
    decodeMassLoop 5 testFile 552 1
        { MassState.init with analog := [10] } 556 =
      .ok ({ MassState.init with analog := [10], duration := some 100 }, 556 + 4 - 552) ∧
    iterMasses testFile testScan true 2 552 =
      .ok [({ MassState.init with duration := some 100, analog := [10] }, 8)] :=
  ⟨(c2_eom_size 5 testFile 552 0 556 0x80000064
      { MassState.init with analog := [10] } testScan MassState.init 0 []).1
      rfl (by decide) rfl,
   (c2_eom_size 5 testFile 552 1 552 0 MassState.init testScan
      { MassState.init with duration := some 100, analog := [10] } 8 []).2
      rfl rfl⟩

/-- C3: whenever the mass decode starting at the iterator's cursor runs into
an EOS-tagged word (tag `0xF`), `GetMass` yields no mass at all — the words
read since the last EOM produce no partial Mass — and the iteration ends
there without any user-visible error. -/
theorem c3_eos_ends_iteration (f : List Nat) (s : ScanData) (off fuel : Nat)
    (h : decodeMass s.edac f off = .error .eos) :
    getMass f s true off = .ok none ∧
    iterMasses f s true (fuel + 1) off = .ok [] := by
  have hg : getMass f s true off = .ok none := by
    simp [getMass, h]
  exact ⟨hg, by simp [iterMasses, hg]⟩

/-- Witness for C3: a stream holding a DATA word and then an EOS word yields
no mass (none of the DATA words read produce a partial mass) and ends the
iteration with an empty result. -/
theorem c3_eos_ends_iteration_witness :
    decodeMass testScan.edac (u32bytes 0x1000000A ++ u32bytes 0xF0000000) 0 =
      .error .eos ∧
    getMass (u32bytes 0x1000000A ++ u32bytes 0xF0000000) testScan true 0 = .ok none ∧
    iterMasses (u32bytes 0x1000000A ++ u32bytes 0xF0000000) testScan true 1 0 = .ok [] :=
  ⟨rfl,
   c3_eos_ends_iteration (u32bytes 0x1000000A ++ u32bytes 0xF0000000) testScan 0 0
     rfl⟩

/-- C4: writing a set-once attribute a second time within one mass fails the
decode with the malformed-attribute error: a TIME word (tag `0x3`) when
`channelTime` is already set, or an EOM word (tag `0x8`) when `duration` is
already set, makes the decode loop error out. -/
theorem c4_set_once (edac : Nat) (f : List Nat) (start fuel off w t : Nat)
    (st : MassState) (hr : readU32LE f off = some w) :
    (wordKey w = KEY_TIME → st.channelTime = some t →
      decodeMassLoop edac f start (fuel + 1) st off =
        .error (.malformedAttribute .channelTime)) ∧
    (wordKey w = KEY_EOM → st.duration = some t →
      decodeMassLoop edac f start (fuel + 1) st off =
        .error (.malformedAttribute .duration)) := by
  constructor
  · intro hk hc
    have hstep : massStep edac st w = .fail (.malformedAttribute .channelTime) := by
      simp [massStep, hk, hc, KEY_EOS, KEY_EOM, KEY_BSCAN, KEY_B, KEY_VOLT, KEY_TIME]
    simp [decodeMassLoop, hr, hstep]
  · intro hk hd
    have hstep : massStep edac st w = .fail (.malformedAttribute .duration) := by
      simp [massStep, hk, hd, KEY_EOS, KEY_EOM]
    simp [decodeMassLoop, hr, hstep]

/-- Witness for C4: a second TIME word when `channelTime = 5` is already
set, and an EOM word when `duration = 7` is already set, each fail with the
malformed-attribute error. -/
theorem c4_set_once_witness :
    decodeMassLoop 0 (u32bytes 0x30000006) 0 1
        { MassState.init with channelTime := some 5 } 0 =
      .error (.malformedAttribute .channelTime) ∧
    decodeMassLoop 0 (u32bytes 0x80000064) 0 1
        { MassState.init with duration := some 7 } 0 =
      .error (.malformedAttribute .duration) :=
  ⟨(c4_set_once 0 (u32bytes 0x30000006) 0 0 0 0x30000006 5
      { MassState.init with channelTime := some 5 } (by decide)).1 (by decide) rfl,
   (c4_set_once 0 (u32bytes 0x80000064) 0 0 0 0x80000064 7
      { MassState.init with duration := some 7 } (by decide)).2 (by decide) rfl⟩

/-- C5: end-to-end on the test file — one index entry pointing at a 188-byte
scan header followed by one DATA word of category analog value 10, an EOM
word with payload 100, and an EOS word — construction yields one scan, and
iterating that scan yields exactly one mass with analog measurements `[10]`
and duration `100`. -/
theorem c5_end_to_end :
    (datFileDecode testFile).map DatFileData.numScans = some 1 ∧
    fileScanMasses testFile 0 =
      .ok [({ MassState.init with duration := some 100, analog := [10] }, 8)] :=
  ⟨rfl, rfl⟩

/-- C6: with the file handle open, `GetScan i` for non-negative `i` fails
with the index-out-of-range error exactly when `i ≥ NumScans`; for
`i < NumScans` it returns the scan decoded at `offsets[i]`, whose `number`
is the field at position 9 of that scan's 47-field header. -/
theorem c6_get_scan (f : List Nat) (d : DatFileData) (i : Int) (h0 : 0 ≤ i) :
    ((∃ j n, getScan f d true i = .error (.indexOutOfRange j n)) ↔
      (d.offsets.length : Int) ≤ i) ∧
    (i < (d.offsets.length : Int) →
      getScan f d true i =
        match scanDecode f (d.offsets.getD i.toNat 0) with
        | none => .error .truncated
        | some s => .ok s) ∧
    (∀ s vals, scanDecode f (d.offsets.getD i.toNat 0) = some s →
      readU32Array f (d.offsets.getD i.toNat 0) 47 = some vals →
      s.number = vals.getD SCAN_NUMBER 0) := by
  have hin : i < (d.offsets.length : Int) →
      getScan f d true i =
        match scanDecode f (d.offsets.getD i.toNat 0) with
        | none => .error .truncated
        | some s => .ok s := by
    intro hlt
    unfold getScan
    rw [if_neg (by simp)]
    rw [if_neg (by omega)]
    rw [pyTupleGet_nonneg d.offsets i h0 hlt]
  refine ⟨⟨?_, ?_⟩, hin, ?_⟩
  · rintro ⟨j, n, hj⟩
    by_contra hlt
    push_neg at hlt
    rw [hin hlt] at hj
    cases hsc : scanDecode f (d.offsets.getD i.toNat 0) with
    | none => rw [hsc] at hj; exact absurd hj (by simp)
    | some s => rw [hsc] at hj; exact absurd hj (by simp)
  · intro hle
    exact ⟨i, d.offsets.length, by simp [getScan, hle]⟩
  · intro s vals hsc hra
    simp only [scanDecode, hra, Option.some.injEq] at hsc
    rw [← hsc]
    simp [SCAN_NUMBER]

/-- Witness for C6: on the test file, scan 0 is returned by decoding at
offset 364, and index 5 (≥ 1 = NumScans) fails with the out-of-range
error. -/
theorem c6_get_scan_witness :
    (getScan testFile testDat true 0 =
      match scanDecode testFile (testDat.offsets.getD (0 : Int).toNat 0) with
      | none => .error .truncated
      | some s => .ok s) ∧
    (∃ j n, getScan testFile testDat true 5 = .error (.indexOutOfRange j n)) :=
  ⟨(c6_get_scan testFile testDat 0 (by decide)).2.1 (by decide),
   (c6_get_scan testFile testDat 5 (by decide)).1.mpr (by decide)⟩

/-- C7: constructing the DatFile reads 85 little-endian u32 fields at byte
`0x10`, takes the timestamp from field 40, the index length `N` from field
39 and the index offset `O` from field 33, reads `N` u32 offsets starting at
byte `O + 4`, and `NumScans` returns `N`. -/
theorem c7_file_header (f : List Nat) (vals offs : List Nat)
    (h1 : readU32Array f 0x10 85 = some vals)
    (h2 : readU32Array f (vals.getD HDR_INDEX_OFFSET 0 + 4)
            (vals.getD HDR_INDEX_LEN 0) = some offs) :
    datFileDecode f =
      some { timestamp := vals.getD HDR_TIMESTAMP 0, vals := vals, offsets := offs } ∧
    (datFileDecode f).map DatFileData.numScans =
      some (vals.getD HDR_INDEX_LEN 0) := by
  have hd : datFileDecode f =
      some { timestamp := vals.getD HDR_TIMESTAMP 0, vals := vals,
             offsets := offs } := by
    have h2x := h2
    simp only [List.getD_eq_getElem?_getD] at h2x
    simp [datFileDecode, h1, h2x]
  refine ⟨hd, ?_⟩
  rw [hd]
  simp [DatFileData.numScans, readU32Array_length h2]

/-- Witness for C7: the test file's 85 header fields are `testVals` (index
offset 356 at field 33, index length 1 at field 39, timestamp at field 40),
and its offset table is `[364]`. -/
theorem c7_file_header_witness :
    datFileDecode testFile =
      some { timestamp := testVals.getD HDR_TIMESTAMP 0, vals := testVals,
             offsets := [364] } ∧
    (datFileDecode testFile).map DatFileData.numScans =
      some (testVals.getD HDR_INDEX_LEN 0) :=
  c7_file_header testFile testVals [364] rfl rfl

/-- C10: with the file handle open, a negative index `-N ≤ i ≤ -1` passes
`GetScan`'s upper-bound-only check and wraps around per Python list
indexing: the scan decoded at `offsets[N + i]` is returned, with no
error. -/
theorem c10_negative_index (f : List Nat) (d : DatFileData) (i : Int)
    (s : ScanData) (h1 : -(d.offsets.length : Int) ≤ i) (h2 : i ≤ -1)
    (h3 : scanDecode f
            (d.offsets.getD ((d.offsets.length : Int) + i).toNat 0) = some s) :
    getScan f d true i = .ok s := by
  have hneg : i < 0 := by omega
  unfold getScan
  rw [if_neg (by simp)]
  rw [if_neg (by omega)]
  rw [pyTupleGet_neg d.offsets i hneg h1]
  have h3x := h3
  simp only [List.getD_eq_getElem?_getD] at h3x
  simp [h3x]

/-- Witness for C10: on the test file (one scan), `GetScan (-1)` returns the
scan decoded at `offsets[0] = 364`. -/
theorem c10_negative_index_witness :
    getScan testFile testDat true (-1) = .ok testScan :=
  c10_negative_index testFile testDat (-1) testScan (by decide) (by decide) rfl

end ExtractDat3
